import Mathlib

/-!
Verification development for the NYC vehicle-accident dashboard
(`streamlit_nyc.py`).  The script is a linear data pipeline:

  fetch (HTTP, lines 17-31) → empty guard (36-38) → DataFrame +
  required-column check (41-46) → normalization (48-56) →
  date-range filtering (58-63) → summary statistics (69-87) →
  map composition (89-153).

We embed the pipeline shallowly: dataframe rows become Lean structures,
each script stage becomes a pure function, the Streamlit calls
(`st.error`, `st.warning`, `st.write`, `st.pydeck_chart`) become emitted
events, and an uncaught Python exception becomes an explicit error value.
Timestamps are minutes since an abstract epoch; a calendar date `d`
corresponds to the timestamp `d * 1440` (its midnight), matching
`pd.to_datetime` applied to a `datetime.date`.  Library coercions
(`pd.to_datetime(errors=coerce)`, `pd.to_numeric(errors=coerce)`,
`str.lower()`, `Series.mode()`) are modelled by executable Lean functions
on the input shapes the pipeline can feed them.
-/

namespace StreamlitNyc

/-! ### Calendar and coercion model -/

/-- Minutes in one calendar day; a calendar date `d` is rendered as the
timestamp `d * 1440` (midnight), which is what `pd.to_datetime` produces
from a `datetime.date`. -/
def minutesPerDay : Int := 1440

/-- Order-preserving code for the calendar date `y-m-d` (month `1..12`,
day `1..31`): lexicographic packing of (year, month, day).  Day-level
date arithmetic in the pipeline only compares dates, so any strictly
monotone packing models `datetime.date`. -/
def encodeDate (y m d : Nat) : Int :=
  ((y * 12 + (m - 1)) * 31 + (d - 1) : Nat)

/-- Date-only component of a timestamp (`Timestamp.date` / `Series.dt.date`):
floor-divide minutes into days. -/
def dateOf (t : Int) : Int := t / minutesPerDay

/-- Split a character list at every occurrence of `sep` (models
`str.split(sep)`). -/
def splitOnChar (sep : Char) (cs : List Char) : List (List Char) :=
  cs.foldr
    (fun c acc =>
      match acc with
      | [] => if c = sep then [[], []] else [[c]]
      | g :: rest => if c = sep then [] :: g :: rest else (c :: g) :: rest)
    [[]]

/-- Left-to-right accumulation of decimal digits; fails on any
non-digit character. -/
def parseDigitsAux : List Char → Nat → Option Nat
  | [], acc => some acc
  | c :: cs, acc =>
      if c.isDigit then parseDigitsAux cs (acc * 10 + (c.toNat - 48)) else none

/-- Parse a non-empty all-digit character list as a natural number. -/
def parseDigits (cs : List Char) : Option Nat :=
  match cs with
  | [] => none
  | _ :: _ => parseDigitsAux cs 0

/-- Parse a `YYYY-MM-DD` character list into an encoded calendar date,
validating the month and day ranges. -/
def parseYMD (cs : List Char) : Option Int :=
  match splitOnChar '-' cs with
  | [ys, ms, ds] =>
      match parseDigits ys, parseDigits ms, parseDigits ds with
      | some y, some m, some d =>
          if 1 ≤ m ∧ m ≤ 12 ∧ 1 ≤ d ∧ d ≤ 31 then some (encodeDate y m d)
          else none
      | _, _, _ => none
  | _ => none

/-- Parse an `HH:MM[:SS...]` character list into minutes past midnight
(the pipeline never compares below minute granularity, so seconds are
dropped). -/
def parseHM (cs : List Char) : Option Int :=
  match splitOnChar ':' cs with
  | [] => none
  | [_] => none
  | hs :: ms :: _ =>
      match parseDigits hs, parseDigits ms with
      | some h, some m => if h ≤ 23 ∧ m ≤ 59 then some (h * 60 + m) else none
      | _, _ => none

/-- Models `pd.to_datetime(_, errors=coerce)` on one cell (line 49):
an ISO `YYYY-MM-DD` date with an optional `T`-separated time-of-day is
coerced to a timestamp in minutes; anything unparseable yields `none`
(`NaT`). -/
def parseDateTime (s : String) : Option Int :=
  match splitOnChar 'T' s.data with
  | [d] => (parseYMD d).map (· * minutesPerDay)
  | [d, t] =>
      match parseYMD d, parseHM t with
      | some dn, some tm => some (dn * minutesPerDay + tm)
      | _, _ => none
  | _ => none

/-- Models `pd.to_numeric(_, errors=coerce)` on one cell (lines 55-56):
an optionally signed decimal numeral is coerced to an exact rational;
anything unparseable yields `none` (`NaN`). -/
def toNumericQ (s : String) : Option ℚ :=
  let signed := fun (neg : Bool) (q : ℚ) => if neg then -q else q
  let core := fun (neg : Bool) (cs : List Char) =>
    match splitOnChar '.' cs with
    | [i] => (parseDigits i).map (fun n => signed neg (n : ℚ))
    | [i, f] =>
        match parseDigits i, parseDigits f with
        | some ni, some nf =>
            some (signed neg ((ni : ℚ) + (nf : ℚ) / ((10 : ℚ) ^ f.length)))
        | _, _ => none
    | _ => none
  match s.data with
  | '-' :: rest => core true rest
  | cs => core false cs

/-- Models `str.lower()` for ASCII characters. -/
def asciiLower (c : Char) : Char :=
  if 65 ≤ c.toNat ∧ c.toNat ≤ 90 then Char.ofNat (c.toNat + 32) else c

/-- Models `str.lower()` (line 105). -/
def pyLower (s : String) : String := ⟨s.data.map asciiLower⟩

/-! ### Data model -/

/-- One raw JSON record as deserialized from the fetch response.  Every
field is a cell that is either a string or null; a key that is absent
from the JSON object becomes `NaN` in the DataFrame exactly like an
explicit null, so both are `none` here.  Unused passthrough fields are
omitted: no pipeline stage reads them. -/
structure RawRecord where
  crash_date : Option String
  latitude : Option String
  longitude : Option String
  on_street_name : Option String
  borough : Option String
deriving DecidableEq, Repr

/-- One normalized accident record: `crash_date` is a timestamp in
minutes or `none` (`NaT`), coordinates are rationals or `none` (`NaN`). -/
structure Record where
  crash_date : Option Int
  latitude : Option ℚ
  longitude : Option ℚ
  on_street_name : Option String
  borough : Option String
deriving DecidableEq, Repr

/-! ### Data acquisition (lines 17-38) -/

/-- An HTTP response: status code plus the JSON-decoded body (a list of
records; transport and JSON decoding internals are library territory). -/
structure HttpResponse where
  status_code : Int
  body : List RawRecord
deriving DecidableEq, Repr

/-- A Python exception escaping the script uncaught. -/
inductive PyError where
  /-- Error raised by `mode()[0]` on an empty mode result (`KeyError`/`IndexError`). -/
  | indexError
deriving DecidableEq, Repr

/-- A Streamlit UI effect emitted by the script, in order. -/
inductive UIEvent where
  | errorMsg (s : String)
  | preview (rows : List Record)
  | statTotal (n : Nat)
  | statAvg (q : Option ℚ)
  | statStreet (s : String)
  | statBorough (s : String)
  | warning (s : String)
deriving DecidableEq, Repr

/-- Function `fetch_accident_data` (lines 18-31), as a function of the response:
on status 200 return the decoded body, otherwise return `[]`. -/
def fetch_accident_data (resp : HttpResponse) : List RawRecord :=
  if resp.status_code = 200 then resp.body else []

/-- The `st.error` emitted by `fetch_accident_data` on a non-success
status (line 30). -/
def fetchMessages (resp : HttpResponse) : List UIEvent :=
  if resp.status_code = 200 then []
  else [UIEvent.errorMsg ("Failed to fetch data. Status code: " ++ toString resp.status_code)]

/-! ### Normalization (lines 41-56) -/

/-- Required-column check (lines 44-45): `pd.DataFrame(accidents)` has a
column exactly when some record carries the key, so a column is present
here when some record has the field non-null. -/
def requiredColumnsPresent (rows : List RawRecord) : Bool :=
  rows.any (fun r => r.crash_date.isSome) &&
  rows.any (fun r => r.latitude.isSome) &&
  rows.any (fun r => r.longitude.isSome) &&
  rows.any (fun r => r.on_street_name.isSome) &&
  rows.any (fun r => r.borough.isSome)

/-- Per-row field coercions of the normalization block: `crash_date`
through `pd.to_datetime(errors=coerce)` (line 49), coordinates through
`pd.to_numeric(errors=coerce)` (lines 55-56). -/
def normalizeRow (r : RawRecord) : Record :=
  { crash_date := r.crash_date.bind parseDateTime
    latitude := r.latitude.bind toNumericQ
    longitude := r.longitude.bind toNumericQ
    on_street_name := r.on_street_name
    borough := r.borough }

/-- The normalization block in the order the script uses: `to_datetime` on
`crash_date` (line 49), then `dropna` on the subset latitude, longitude, borough on the still-raw string cells (line 52), then `to_numeric`
on the coordinates (lines 55-56).  The drop therefore tests the raw
cells for null, not the coerced ones. -/
def normalize (rows : List RawRecord) : List Record :=
  (rows.filter
      (fun r => r.latitude.isSome && r.longitude.isSome && r.borough.isSome)).map
    normalizeRow

/-! ### Filtering (lines 58-63) -/

/-- Function `filtered_df` (line 63): keep rows whose `crash_date` timestamp lies
between the midnights of the two picked dates; a `NaT` crash date fails
both pandas comparisons and is dropped. -/
def filtered_df (df : List Record) (start_date end_date : Int) : List Record :=
  df.filter
    (fun r =>
      match r.crash_date with
      | some t =>
          decide (start_date * minutesPerDay ≤ t) && decide (t ≤ end_date * minutesPerDay)
      | none => false)

/-! ### Aggregation (lines 69-87) -/

/-- Grouping `filtered_df.groupby(filtered_df[..crash_date..].dt.date).size()`
(line 77): the list of (date, count) pairs over the distinct date-only
components; `NaT` rows produce no group.  (pandas sorts the group keys;
the mean below is insensitive to their order.) -/
def accidents_per_day (df : List Record) : List (Int × Nat) :=
  let ds := df.filterMap (fun r => r.crash_date.map dateOf)
  ds.dedup.map (fun d => (d, ds.count d))

/-- Models `Series.mean()`: the arithmetic mean, `NaN` (= `none`) on an empty
series. -/
def seriesMean (xs : List ℚ) : Option ℚ :=
  match xs with
  | [] => none
  | _ :: _ => some (xs.sum / xs.length)

/-- Definition `avg_accidents_per_day` (line 78): mean of the per-day group sizes. -/
def avg_accidents_per_day (df : List Record) : Option ℚ :=
  seriesMean ((accidents_per_day df).map (fun p => (p.2 : ℚ)))

/-- Python string comparison (code-point lexicographic) on the
underlying character lists, as used by pandas when sorting object-dtype
values. -/
def lexLt : List Char → List Char → Bool
  | [], [] => false
  | [], _ :: _ => true
  | _ :: _, [] => false
  | a :: as, b :: bs =>
      if a.toNat < b.toNat then true
      else if b.toNat < a.toNat then false
      else lexLt as bs

/-- Python `<` on strings. -/
def pyStrLt (a b : String) : Bool := lexLt a.data b.data

/-- The largest multiplicity attained in a list of values. -/
def maxCount (vs : List String) : Nat :=
  (vs.map (fun v => vs.count v)).foldr max 0

/-- The values attaining the largest multiplicity (with repetitions;
the minimum below is unaffected). -/
def modeCandidates (vs : List String) : List String :=
  vs.filter (fun v => vs.count v = maxCount vs)

/-- Least element of a string list under Python string order. -/
def listMinStr : List String → Option String
  | [] => none
  | x :: xs => some (xs.foldl (fun best w => if pyStrLt w best then w else best) x)

/-- Models `Series.mode()[0]` (lines 82 and 86): drop nulls, find the
values of maximal multiplicity, and return the least of them — `mode()`
returns its result sorted ascending and `[0]` takes the first entry.
On an empty mode result the subscript raises, modelled by `none`. -/
def mode0 (col : List (Option String)) : Option String :=
  listMinStr (modeCandidates (col.filterMap id))

/-! ### Map composition (lines 89-150) -/

/-- A pydeck layer description: the scatterplot of accident positions
(line 94, `get_position=[longitude, latitude]`) or a borough-boundary
polygon (line 128). -/
inductive Layer where
  | scatter (pts : List (Option ℚ × Option ℚ))
  | polygon (ring : List (ℚ × ℚ))
deriving DecidableEq, Repr

/-- Hard-coded Manhattan boundary ring (lines 110-116). -/
def manhattanBoundary : List (ℚ × ℚ) :=
  [(-74.0201, 40.7003), (-73.9306, 40.7003), (-73.9306, 40.8003),
   (-74.0201, 40.8003), (-74.0201, 40.7003)]

/-- Hard-coded Brooklyn boundary ring (lines 117-123). -/
def brooklynBoundary : List (ℚ × ℚ) :=
  [(-73.9794, 40.5730), (-73.8994, 40.5730), (-73.8994, 40.6930),
   (-73.9794, 40.6930), (-73.9794, 40.5730)]

/-- The `borough_boundaries` dictionary (lines 109-124): its only keys
are `manhattan` and `brooklyn`. -/
def borough_boundaries (name : String) : Option (List (ℚ × ℚ)) :=
  if name = "manhattan" then some manhattanBoundary
  else if name = "brooklyn" then some brooklynBoundary
  else none

/-- The declarative pydeck scene (lines 140-148): layer list plus the
initial view centred on the mean of the filtered coordinates (pandas
`mean()` skips `NaN` cells and is `NaN` on an all-null column). -/
structure Scene where
  layers : List Layer
  viewLat : Option ℚ
  viewLon : Option ℚ
deriving DecidableEq, Repr

/-- Map composition for a non-empty filtered dataset (lines 93-148):
scatter layer from the coordinates, then the optional highlight polygon
for the lowercased modal borough (lines 105, 127-137), layers combined
as `[accident_layer] + ([highlight] if highlight else [])` (line 147). -/
def buildDeck (fdf : List Record) (most_common_borough : String) : Scene :=
  let b := pyLower most_common_borough
  { layers :=
      Layer.scatter (fdf.map (fun r => (r.longitude, r.latitude))) ::
        (match borough_boundaries b with
         | some ring => [Layer.polygon ring]
         | none => [])
    viewLat := seriesMean (fdf.filterMap (fun r => r.latitude))
    viewLon := seriesMean (fdf.filterMap (fun r => r.longitude)) }

/-! ### The script body after the date pickers (lines 62-153) -/

/-- Script body from the filter line to the end (lines 62-153), given the
normalized dataset and the picked dates: emit the preview and the first
two statistics, then compute the two modes — `mode()[0]` on an empty
mode result raises and aborts the script (the events emitted so far
stay on screen) — and finally either build the map scene (the scene
itself is summarised by its presence; its content is `buildDeck`) or,
when the filtered frame is empty, emit the warning of line 153. -/
def runFiltered (df : List Record) (start_date end_date : Int) :
    List UIEvent × Option PyError :=
  let fdf := filtered_df df start_date end_date
  let ev0 := [UIEvent.preview ((fdf.map
      (fun r => { r with on_street_name := none, borough := none })).take 5),
    UIEvent.statTotal fdf.length,
    UIEvent.statAvg (avg_accidents_per_day fdf)]
  match mode0 (fdf.map (fun r => r.on_street_name)) with
  | none => (ev0, some PyError.indexError)
  | some street =>
    match mode0 (fdf.map (fun r => r.borough)) with
    | none => (ev0 ++ [UIEvent.statStreet street], some PyError.indexError)
    | some borough =>
        let ev1 := ev0 ++ [UIEvent.statStreet street, UIEvent.statBorough borough]
        if fdf.length > 0 then (ev1, none)
        else (ev1 ++ [UIEvent.warning "No accidents found for the selected date range."], none)

/-- The script body from the empty-accidents guard on (lines 36-153):
an empty fetch result short-circuits to `st.error` (line 38), missing
required columns short-circuit to `st.error` (line 46), otherwise the
data is normalized and the filtered pipeline runs with the picked
dates. -/
def runPipeline (accidents : List RawRecord) (start_date end_date : Int) :
    List UIEvent × Option PyError :=
  if accidents.isEmpty then ([UIEvent.errorMsg "No accident data found."], none)
  else if !(requiredColumnsPresent accidents) then
    ([UIEvent.errorMsg
        "The dataset does not contain the necessary columns: crash_date, latitude, longitude, on_street_name, borough."],
      none)
  else runFiltered (normalize accidents) start_date end_date

/-! ### Specification-side definitions

These two definitions follow the wording of the specification (not the
script) and exist only to be compared against the ones embedded from the
script. -/

/-- Aggregation contract, spec wording: group the records by the
date-only component of `crash_date`, count each group.  A record with an
invalid crash date belongs to no group; a calendar date with zero
records contributes no count. -/
def specGroupCounts (df : List Record) : List Nat :=
  ((df.filterMap (fun r => r.crash_date.map dateOf)).dedup).map
    (fun d => (df.filter (fun r => r.crash_date.map dateOf == some d)).length)

/-- Modal-value contract, spec wording: the most frequently occurring
non-null value of the column, ties broken by first occurrence in dataset
order (stable mode). -/
def specStableMode (col : List (Option String)) : Option String :=
  let vs := col.filterMap id
  vs.find? (fun v => vs.count v = maxCount vs)

/-! ### Concrete sample data -/

/-- Record at the midnight of day 0 with no usable columns. -/
def recMidnight : Record :=
  { crash_date := some 0, latitude := none, longitude := none
    on_street_name := none, borough := none }

/-- Record at noon of day 0: its date-only component is day 0 but its
timestamp is strictly after midnight. -/
def recNoon : Record :=
  { crash_date := some 720, latitude := none, longitude := none
    on_street_name := none, borough := none }

/-- Record with an invalid (`NaT`) crash date. -/
def recNoDate : Record :=
  { crash_date := none, latitude := none, longitude := none
    on_street_name := none, borough := none }

/-- Raw record whose latitude cell is a non-null but unparseable string. -/
def rawBadLat : RawRecord :=
  { crash_date := some "2023-01-01", latitude := some "abc", longitude := some "40"
    on_street_name := some "MAIN ST", borough := some "QUEENS" }

/-- Raw record with fully parseable cells. -/
def rawGood : RawRecord :=
  { crash_date := some "2023-01-02", latitude := some "40", longitude := some "-73"
    on_street_name := some "MAIN ST", borough := some "BROOKLYN" }

/-- Raw record whose borough cell is null. -/
def rawNoBorough : RawRecord :=
  { crash_date := some "2023-01-02", latitude := some "40", longitude := some "-73"
    on_street_name := some "MAIN ST", borough := none }

/-- Raw record whose crash-date cell is a non-null unparseable string. -/
def rawBadDate : RawRecord :=
  { crash_date := some "not-a-date", latitude := some "40", longitude := some "-73"
    on_street_name := some "MAIN ST", borough := some "BROOKLYN" }

/-- Calendar dates of the three-record sample of the specification. -/
def jan1 : Int := encodeDate 2023 1 1

/-- Second day of the sample. -/
def jan2 : Int := encodeDate 2023 1 2

/-- End of a four-day query range over the sample. -/
def jan4 : Int := encodeDate 2023 1 4

/-- Normalized Brooklyn record dated at the midnight of day `d`. -/
def sampleBrooklynRecord (d : Int) : Record :=
  { crash_date := some (d * minutesPerDay), latitude := some 40, longitude := some (-73)
    on_street_name := some "MAIN ST", borough := some "BROOKLYN" }

/-- The three-record sample dataset of the specification: two records on
2023-01-01 and one on 2023-01-02, all in BROOKLYN. -/
def sampleBrooklynData : List Record :=
  [sampleBrooklynRecord jan1, sampleBrooklynRecord jan1, sampleBrooklynRecord jan2]

/-- Column with two values tied at multiplicity one, lexicographically
decreasing, to separate first-encountered from sorted tie-breaking. -/
def colBA : List (Option String) := [some "B", some "A"]

/-- A failing response. -/
def resp500 : HttpResponse := { status_code := 500, body := [] }

/-- A successful response whose body is the empty JSON array. -/
def emptyOkResponse : HttpResponse := { status_code := 200, body := [] }

/-! ### Helper lemmas -/

/-- Lexicographic comparison is irreflexive. -/
theorem lexLt_irrefl (as : List Char) : lexLt as as = false := by
  induction as with
  | nil => rfl
  | cons a as ih => simp [lexLt, ih]

/-- Lexicographic comparison is transitive. -/
theorem lexLt_trans {as bs cs : List Char} (h1 : lexLt as bs = true)
    (h2 : lexLt bs cs = true) : lexLt as cs = true := by
  induction as generalizing bs cs with
  | nil =>
    cases cs with
    | nil =>
      cases bs with
      | nil => exact h1
      | cons b bs => simp [lexLt] at h2
    | cons c cs => simp [lexLt]
  | cons a as ih =>
    cases bs with
    | nil => simp [lexLt] at h1
    | cons b bs =>
      cases cs with
      | nil => simp [lexLt] at h2
      | cons c cs =>
        simp only [lexLt] at h1 h2 ⊢
        split_ifs at h1 h2 ⊢ <;>
          first
          | rfl
          | (exact ih h1 h2)
          | omega

/-- Negated lexicographic comparison is transitive. -/
theorem lexLt_false_trans {as bs cs : List Char} (h1 : lexLt as bs = false)
    (h2 : lexLt bs cs = false) : lexLt as cs = false := by
  induction as generalizing bs cs with
  | nil =>
    cases bs with
    | nil => exact h2
    | cons b bs => simp [lexLt] at h1
  | cons a as ih =>
    cases bs with
    | nil =>
      cases cs with
      | nil => rfl
      | cons c cs => simp [lexLt] at h2
    | cons b bs =>
      cases cs with
      | nil => rfl
      | cons c cs =>
        simp only [lexLt] at h1 h2 ⊢
        split_ifs at h1 h2 ⊢ <;>
          first
          | rfl
          | (exact ih h1 h2)
          | omega

/-- The folded minimum of a string list is the start value or a member. -/
theorem foldlMinStr_mem (xs : List String) (x : String) :
    xs.foldl (fun best w => if pyStrLt w best then w else best) x = x ∨
      xs.foldl (fun best w => if pyStrLt w best then w else best) x ∈ xs := by
  induction xs generalizing x with
  | nil => left; rfl
  | cons w xs ih =>
    simp only [List.foldl_cons]
    rcases ih (if pyStrLt w x then w else x) with h | h
    · by_cases hw : pyStrLt w x
      · right; rw [h]; simp [hw]
      · left; rw [h]; simp [hw]
    · right; exact List.mem_cons_of_mem _ h

/-- Nothing in the list compares strictly below the folded minimum, and
neither does the start value. -/
theorem foldlMinStr_min : ∀ (xs : List String) (x y : String), (y = x ∨ y ∈ xs) →
    pyStrLt y (xs.foldl (fun best w => if pyStrLt w best then w else best) x) = false
  | [], _, y, hy => by
      rcases hy with rfl | h
      · exact lexLt_irrefl _
      · cases h
  | w :: xs, x, y, hy => by
      simp only [List.foldl_cons]
      by_cases hwx : pyStrLt w x
      · rw [if_pos hwx]
        rcases hy with rfl | hy
        · have hwres := foldlMinStr_min xs w w (Or.inl rfl)
          cases hx : pyStrLt y (xs.foldl (fun best w => if pyStrLt w best then w else best) w) with
          | false => rfl
          | true => exact absurd (lexLt_trans hwx hx) (by simpa [pyStrLt] using hwres)
        · rcases List.mem_cons.mp hy with hyw | hy
          · subst hyw
            exact foldlMinStr_min xs y y (Or.inl rfl)
          · exact foldlMinStr_min xs w y (Or.inr hy)
      · rw [if_neg hwx]
        rcases hy with rfl | hy
        · exact foldlMinStr_min xs y y (Or.inl rfl)
        · rcases List.mem_cons.mp hy with hyw | hy
          · subst hyw
            have hxres := foldlMinStr_min xs x x (Or.inl rfl)
            have hwx2 : pyStrLt y x = false := by
              cases hk : pyStrLt y x with
              | false => rfl
              | true => exact absurd hk hwx
            exact lexLt_false_trans hwx2 hxres
          · exact foldlMinStr_min xs x y (Or.inr hy)

/-- Members of the minimum list extraction. -/
theorem listMinStr_mem {l : List String} {v : String} (h : listMinStr l = some v) :
    v ∈ l := by
  cases l with
  | nil => cases h
  | cons x xs =>
    simp only [listMinStr, Option.some.injEq] at h
    rcases foldlMinStr_mem xs x with h2 | h2
    · rw [h] at h2; rw [← h2]; exact List.mem_cons_self _ _
    · rw [h] at h2; exact List.mem_cons_of_mem _ h2

/-- No member of the list compares strictly below the extracted minimum. -/
theorem listMinStr_min {l : List String} {v w : String} (h : listMinStr l = some v)
    (hw : w ∈ l) : pyStrLt w v = false := by
  cases l with
  | nil => cases h
  | cons x xs =>
    simp only [listMinStr, Option.some.injEq] at h
    rw [← h]
    rcases List.mem_cons.mp hw with hyw | hyw
    · subst hyw; exact foldlMinStr_min xs w w (Or.inl rfl)
    · exact foldlMinStr_min xs x w (Or.inr hyw)

/-- A member of a natural-number list is bounded by its folded maximum. -/
theorem le_foldr_max : ∀ {l : List Nat} {x : Nat}, x ∈ l → x ≤ l.foldr max 0
  | [], _, hx => absurd hx (List.not_mem_nil _)
  | n :: ns, x, hx => by
      rcases List.mem_cons.mp hx with rfl | hx
      · exact le_max_left _ _
      · exact le_trans (le_foldr_max hx) (le_max_right _ _)

/-- Every multiplicity in a list is bounded by `maxCount`. -/
theorem count_le_maxCount {vs : List String} {w : String} (hw : w ∈ vs) :
    vs.count w ≤ maxCount vs :=
  le_foldr_max (List.mem_map.mpr ⟨w, hw, rfl⟩)

/-- Complementary counts partition the length of a list. -/
theorem countP_not_add_countP (p : RawRecord → Bool) (l : List RawRecord) :
    l.countP (fun a => !(p a)) + l.countP p = l.length := by
  induction l with
  | nil => rfl
  | cons a l ih =>
    simp only [List.countP_cons, List.length_cons]
    cases h : p a <;> simp [h] <;> omega

/-- Day bounds transfer from a timestamp window to its date-only
component. -/
theorem dateOf_bounds {sd ed t : Int} (h1 : sd * minutesPerDay ≤ t)
    (h2 : t ≤ ed * minutesPerDay) : sd ≤ dateOf t ∧ dateOf t ≤ ed := by
  unfold minutesPerDay at h1 h2
  unfold dateOf minutesPerDay
  constructor
  · have h := Int.ediv_le_ediv (by norm_num : (0 : Int) < 1440) h1
    rwa [Int.mul_ediv_cancel _ (by norm_num)] at h
  · have h := Int.ediv_le_ediv (by norm_num : (0 : Int) < 1440) h2
    rwa [Int.mul_ediv_cancel _ (by norm_num)] at h

/-- Rows with an invalid crash date contribute nothing to the extracted
date list. -/
theorem dates_of_filter_isSome (df : List Record) :
    (df.filter (fun r => r.crash_date.isSome)).filterMap (fun r => r.crash_date.map dateOf)
      = df.filterMap (fun r => r.crash_date.map dateOf) := by
  induction df with
  | nil => rfl
  | cons r df ih =>
    cases h : r.crash_date with
    | none => simp [List.filter_cons, List.filterMap_cons, h, ih]
    | some t => simp [List.filter_cons, List.filterMap_cons, h, ih]

/-- Multiplicity of a date among the extracted dates equals the number
of records carrying that date. -/
theorem count_dates (df : List Record) (d : Int) :
    (df.filterMap (fun r => r.crash_date.map dateOf)).count d
      = (df.filter (fun r => r.crash_date.map dateOf == some d)).length := by
  induction df with
  | nil => rfl
  | cons r df ih =>
    cases h : r.crash_date with
    | none => simp [List.filterMap_cons, List.filter_cons, h, ih]
    | some t =>
      by_cases hd : dateOf t = d
      · simp [List.filterMap_cons, List.filter_cons, h, hd, List.count_cons, ih]
      · simp [List.filterMap_cons, List.filter_cons, h, hd, List.count_cons, ih]

/-- The per-day group sizes computed by the script coincide with the
group counts described by the specification. -/
theorem specGroupCounts_eq (df : List Record) :
    (accidents_per_day df).map (fun p => p.2) = specGroupCounts df := by
  unfold accidents_per_day specGroupCounts
  rw [List.map_map]
  exact List.map_congr_left (fun d _ => count_dates df d)

/-! ### Claim theorems -/

/-- C8: for every dataset and every date range with start > end, the
filtering stage returns the empty subsequence; no validation error is
raised, the result is silently empty. -/
theorem inverted_range_empty (df : List Record) (sd ed : Int) (h : ed < sd) :
    filtered_df df sd ed = [] := by
  unfold filtered_df
  rw [List.filter_eq_nil_iff]
  intro r _
  cases hc : r.crash_date with
  | none => simp
  | some t =>
    simp only [Bool.and_eq_true, decide_eq_true_eq, not_and]
    intro h1 h2
    unfold minutesPerDay at h1 h2
    omega

/-- Witness for C8 at a concrete dataset and the inverted range
`[1, 0]`. -/
theorem inverted_range_empty_witness :
    (0 : Int) < 1 ∧ filtered_df [recNoon] 1 0 = [] :=
  ⟨by decide, inverted_range_empty [recNoon] 1 0 (by decide)⟩

/-- C6: a fetch response with a non-success status yields the empty
record list together with a user-visible error carrying the status, and
the pipeline on that empty list reports that no data was found, emits
nothing else, and raises no exception. -/
theorem fetch_failure_surfaces_and_halts (resp : HttpResponse) (sd ed : Int)
    (h : resp.status_code ≠ 200) :
    fetch_accident_data resp = []
    ∧ fetchMessages resp
        = [UIEvent.errorMsg ("Failed to fetch data. Status code: " ++ toString resp.status_code)]
    ∧ runPipeline (fetch_accident_data resp) sd ed
        = ([UIEvent.errorMsg "No accident data found."], none) := by
  refine ⟨?_, ?_, ?_⟩ <;>
    simp [fetch_accident_data, fetchMessages, runPipeline, h]

/-- Witness for C6 at a concrete HTTP 500 response. -/
theorem fetch_failure_surfaces_and_halts_witness :
    (resp500.status_code ≠ 200)
    ∧ (fetch_accident_data resp500 = []
      ∧ fetchMessages resp500
          = [UIEvent.errorMsg ("Failed to fetch data. Status code: " ++ toString resp500.status_code)]
      ∧ runPipeline (fetch_accident_data resp500) 0 0
          = ([UIEvent.errorMsg "No accident data found."], none)) :=
  ⟨by decide, fetch_failure_surfaces_and_halts resp500 0 0 (by decide)⟩

/-- C10: a transport failure is indistinguishable downstream from a
success carrying an empty JSON array: the fetch returns the same empty
list in both cases and every downstream behaviour, including the
no-data message, is identical. -/
theorem transport_indistinguishable_from_empty (resp : HttpResponse) (sd ed : Int)
    (h : resp.status_code ≠ 200) :
    fetch_accident_data resp = fetch_accident_data emptyOkResponse
    ∧ runPipeline (fetch_accident_data resp) sd ed
        = runPipeline (fetch_accident_data emptyOkResponse) sd ed
    ∧ runPipeline (fetch_accident_data emptyOkResponse) sd ed
        = ([UIEvent.errorMsg "No accident data found."], none) := by
  refine ⟨?_, ?_, ?_⟩ <;>
    simp [fetch_accident_data, emptyOkResponse, runPipeline, h]

/-- Witness for C10 at a concrete HTTP 500 response. -/
theorem transport_indistinguishable_from_empty_witness :
    (resp500.status_code ≠ 200)
    ∧ (fetch_accident_data resp500 = fetch_accident_data emptyOkResponse
      ∧ runPipeline (fetch_accident_data resp500) 0 0
          = runPipeline (fetch_accident_data emptyOkResponse) 0 0
      ∧ runPipeline (fetch_accident_data emptyOkResponse) 0 0
          = ([UIEvent.errorMsg "No accident data found."], none)) :=
  ⟨by decide, transport_indistinguishable_from_empty resp500 0 0 (by decide)⟩

/-- C9: a record whose crash date string fails to parse is marked
invalid (`NaT`) by normalization, never appears in the filtered output
of any date range, and contributes to no per-day group count. -/
theorem invalid_dates_excluded (df : List Record) (sd ed : Int) :
    (∀ raw : RawRecord, ∀ s, raw.crash_date = some s → parseDateTime s = none →
      (normalizeRow raw).crash_date = none)
    ∧ (∀ rec : Record, rec.crash_date = none → rec ∉ filtered_df df sd ed)
    ∧ accidents_per_day df
        = accidents_per_day (df.filter (fun r => r.crash_date.isSome)) := by
  refine ⟨?_, ?_, ?_⟩
  · intro raw s hs hp
    simp [normalizeRow, hs, hp]
  · intro rec hnone hmem
    rw [filtered_df, List.mem_filter, hnone] at hmem
    simp at hmem
  · unfold accidents_per_day
    rw [dates_of_filter_isSome]

/-- Witness for C9: an unparseable crash-date string is marked `NaT`
and the `NaT` record is excluded from a concrete filtered output and
from the per-day groups. -/
theorem invalid_dates_excluded_witness :
    ((rawBadDate.crash_date = some "not-a-date")
      ∧ parseDateTime "not-a-date" = none
      ∧ (normalizeRow rawBadDate).crash_date = none)
    ∧ (recNoDate.crash_date = none ∧ recNoDate ∉ filtered_df [recNoDate] 0 0)
    ∧ accidents_per_day [recNoDate]
        = accidents_per_day ([recNoDate].filter (fun r => r.crash_date.isSome)) :=
  ⟨⟨rfl, by decide,
      (invalid_dates_excluded [recNoDate] 0 0).1 rawBadDate "not-a-date" rfl (by decide)⟩,
    ⟨rfl, (invalid_dates_excluded [recNoDate] 0 0).2.1 recNoDate rfl⟩,
    (invalid_dates_excluded [recNoDate] 0 0).2.2⟩

/-- C2 counterexample: a raw record with a non-null but unparseable
latitude string survives normalization with a null latitude, so the
claimed invariant (all records non-null after normalization) and the
claimed count identity (the record should have been dropped, leaving
zero records) both fail on the code. -/
theorem normalize_unparseable_latitude_counterexample :
    (normalize [rawBadLat]).length = 1
    ∧ (normalize [rawBadLat]).all (fun r => r.latitude.isSome) = false
    ∧ ¬ ((normalize [rawBadLat]).length = 1 - 1) := by
  refine ⟨by decide, by decide, by decide⟩

/-- C2 as amended: the script drops on the raw cells first (line 52) and
coerces the coordinates afterwards (lines 55-56), so after normalization
every record has a non-null borough and the output length is the input
length minus the number of records whose raw latitude, longitude, or
borough cell is null; unparseable coordinate strings become null and are
not dropped. -/
theorem normalize_drop_before_coercion (rows : List RawRecord) :
    (∀ rec ∈ normalize rows, rec.borough.isSome)
    ∧ (normalize rows).length
        = rows.length
          - rows.countP (fun r => r.latitude.isNone || r.longitude.isNone || r.borough.isNone) := by
  constructor
  · intro rec hrec
    rcases List.mem_map.mp hrec with ⟨raw, hraw, hrow⟩
    have hkeep := (List.mem_filter.mp hraw).2
    simp only [Bool.and_eq_true] at hkeep
    rw [← hrow]
    simp [normalizeRow]
    cases hb : raw.borough with
    | none => rw [hb] at hkeep; simp at hkeep
    | some b => simp
  · have hpoint : ∀ r : RawRecord,
        (r.latitude.isNone || r.longitude.isNone || r.borough.isNone)
          = !(r.latitude.isSome && r.longitude.isSome && r.borough.isSome) := by
      intro r
      cases r.latitude <;> cases r.longitude <;> cases r.borough <;> rfl
    unfold normalize
    rw [List.length_map, ← List.countP_eq_length_filter]
    have hc : rows.countP
        (fun r => r.latitude.isNone || r.longitude.isNone || r.borough.isNone)
        = rows.countP
          (fun r => !(r.latitude.isSome && r.longitude.isSome && r.borough.isSome)) := by
      induction rows with
      | nil => rfl
      | cons a l ih => simp only [List.countP_cons, ih, hpoint a]
    rw [hc]
    have := countP_not_add_countP
      (fun r => r.latitude.isSome && r.longitude.isSome && r.borough.isSome) rows
    omega

/-- Witness for C2 (amended) on a concrete two-record input, one of
which has a null borough. -/
theorem normalize_drop_before_coercion_witness :
    (∀ rec ∈ normalize [rawGood, rawNoBorough], rec.borough.isSome)
    ∧ (normalize [rawGood, rawNoBorough]).length
        = ([rawGood, rawNoBorough] : List RawRecord).length
          - ([rawGood, rawNoBorough] : List RawRecord).countP
              (fun r => r.latitude.isNone || r.longitude.isNone || r.borough.isNone) :=
  normalize_drop_before_coercion [rawGood, rawNoBorough]

/-- C3: when the filtered range is empty the script does not skip the
statistics and never reaches the empty-range warning: the preview and
the first two statistic lines are emitted, then the modal-street
computation raises an uncaught exception (`mode()[0]` on an empty
frame), so no `EmptyResultWarning` is surfaced. -/
theorem empty_filter_crashes_before_warning (df : List Record) (sd ed : Int)
    (h : filtered_df df sd ed = []) :
    runFiltered df sd ed
      = ([UIEvent.preview [], UIEvent.statTotal 0, UIEvent.statAvg none],
          some PyError.indexError)
    ∧ (∀ s, UIEvent.warning s ∉ (runFiltered df sd ed).1) := by
  have hrun : runFiltered df sd ed
      = ([UIEvent.preview [], UIEvent.statTotal 0, UIEvent.statAvg none],
          some PyError.indexError) := by
    unfold runFiltered
    rw [h]
    rfl
  refine ⟨hrun, ?_⟩
  intro s
  rw [hrun]
  simp

/-- Witness for C3 at a concrete one-record dataset and a range with no
matching record. -/
theorem empty_filter_crashes_before_warning_witness :
    (filtered_df [recMidnight] 1 1 = [])
    ∧ (runFiltered [recMidnight] 1 1
        = ([UIEvent.preview [], UIEvent.statTotal 0, UIEvent.statAvg none],
            some PyError.indexError)
      ∧ ∀ s, UIEvent.warning s ∉ (runFiltered [recMidnight] 1 1).1) :=
  ⟨by decide, empty_filter_crashes_before_warning [recMidnight] 1 1 (by decide)⟩

/-- C1 counterexample: a record timestamped at noon of day 0 has
date-only component 0, which lies in the range `[0, 0]`, yet the
filtering stage excludes it, because the comparison is against the
midnight timestamp of the end date rather than at day granularity. -/
theorem day_granularity_counterexample :
    recNoon ∈ [recNoon]
    ∧ recNoon.crash_date = some 720
    ∧ (0 : Int) ≤ dateOf 720 ∧ dateOf 720 ≤ 0
    ∧ recNoon ∉ filtered_df [recNoon] 0 0 := by
  refine ⟨by decide, rfl, by decide, by decide, by decide⟩

/-- C1 as amended: for start ≤ end the filtering stage returns a
subsequence of the input; every returned record has a valid timestamp
whose date-only component lies in `[start, end]`; and every input record
whose timestamp lies in the closed window from the midnight of start to
the midnight of end is returned.  (Completeness at day granularity holds
only for records timestamped at the midnight of their day; a record
strictly after the midnight of the end date is excluded.) -/
theorem filtering_window_characterization (df : List Record) (sd ed : Int)
    (h : sd ≤ ed) :
    (filtered_df df sd ed).Sublist df
    ∧ (∀ r ∈ filtered_df df sd ed,
        ∃ t, r.crash_date = some t ∧ sd ≤ dateOf t ∧ dateOf t ≤ ed)
    ∧ (∀ r ∈ df, ∀ t, r.crash_date = some t →
        sd * minutesPerDay ≤ t → t ≤ ed * minutesPerDay →
        r ∈ filtered_df df sd ed) := by
  refine ⟨List.filter_sublist df, ?_, ?_⟩
  · intro r hr
    have hmem := List.mem_filter.mp hr
    cases ht : r.crash_date with
    | none => rw [ht] at hmem; simp at hmem
    | some t =>
      rw [ht] at hmem
      simp only [Bool.and_eq_true, decide_eq_true_eq] at hmem
      obtain ⟨-, h1, h2⟩ := hmem
      exact ⟨t, rfl, dateOf_bounds h1 h2⟩
  · intro r hr t ht h1 h2
    rw [filtered_df, List.mem_filter]
    refine ⟨hr, ?_⟩
    rw [ht]
    simp [h1, h2]

/-- Witness for C1 (amended) on a concrete one-record dataset at the
midnight of day 0 with the range `[0, 0]`. -/
theorem filtering_window_characterization_witness :
    ((0 : Int) ≤ 0)
    ∧ ((filtered_df [recMidnight] 0 0).Sublist [recMidnight]
      ∧ (∀ r ∈ filtered_df [recMidnight] 0 0,
          ∃ t, r.crash_date = some t ∧ (0 : Int) ≤ dateOf t ∧ dateOf t ≤ 0)
      ∧ (∀ r ∈ [recMidnight], ∀ t, r.crash_date = some t →
          0 * minutesPerDay ≤ t → t ≤ 0 * minutesPerDay →
          r ∈ filtered_df [recMidnight] 0 0)) :=
  ⟨by decide, filtering_window_characterization [recMidnight] 0 0 (by decide)⟩

/-- Mean of a non-empty series. -/
theorem seriesMean_ne_nil {xs : List ℚ} (hx : xs ≠ []) :
    seriesMean xs = some (xs.sum / xs.length) := by
  cases xs with
  | nil => exact absurd rfl hx
  | cons x xs => rfl

/-- C4: on a non-empty filtered dataset (all of whose records carry a
valid crash timestamp, as the filtering stage guarantees), the mean
records-per-day statistic equals the average of the per-group counts
obtained by grouping records by the date-only component of
`crash_date`; on the three-record sample the total is 3 and the
average per day is 3/2, which differs from total divided by the length
of a four-day query range. -/
theorem avg_per_day_is_mean_of_group_counts (df : List Record) (h1 : df ≠ [])
    (h2 : ∀ r ∈ df, r.crash_date.isSome) :
    avg_accidents_per_day df
      = some ((((specGroupCounts df).map (fun n : Nat => (n : ℚ))).sum)
          / ((specGroupCounts df).length : ℚ))
    ∧ filtered_df sampleBrooklynData jan1 jan4 = sampleBrooklynData
    ∧ sampleBrooklynData.length = 3
    ∧ avg_accidents_per_day sampleBrooklynData = some (3 / 2)
    ∧ ((3 : ℚ) / 2 ≠ (3 : ℚ) / 4) := by
  refine ⟨?_, by decide, rfl, ?_, by norm_num⟩
  · have hds : df.filterMap (fun r => r.crash_date.map dateOf) ≠ [] := by
      cases df with
      | nil => exact absurd rfl h1
      | cons r df' =>
        have hr := h2 r (List.mem_cons_self r df')
        cases hc : r.crash_date with
        | none => rw [hc] at hr; simp at hr
        | some t => simp [List.filterMap_cons, hc]
    have hdedup : (df.filterMap (fun r => r.crash_date.map dateOf)).dedup ≠ [] := by
      intro hnil
      exact hds ((List.dedup_eq_nil _).mp hnil)
    have hapd : accidents_per_day df ≠ [] := by
      unfold accidents_per_day
      intro hnil
      exact hdedup (List.map_eq_nil_iff.mp hnil)
    have hmapeq : (accidents_per_day df).map (fun p => (p.2 : ℚ))
        = (specGroupCounts df).map (fun n : Nat => (n : ℚ)) := by
      rw [← specGroupCounts_eq, List.map_map]
      rfl
    have hmap_ne : (accidents_per_day df).map (fun p => (p.2 : ℚ)) ≠ [] := by
      intro hnil
      exact hapd (List.map_eq_nil_iff.mp hnil)
    unfold avg_accidents_per_day
    rw [seriesMean_ne_nil hmap_ne, hmapeq, List.length_map]
  · have hacc : accidents_per_day sampleBrooklynData = [(jan1, 2), (jan2, 1)] := by
      decide
    unfold avg_accidents_per_day
    rw [hacc]
    simp [seriesMean]
    norm_num

/-- Witness for C4 at the three-record sample dataset. -/
theorem avg_per_day_is_mean_of_group_counts_witness :
    (sampleBrooklynData ≠ [] ∧ ∀ r ∈ sampleBrooklynData, r.crash_date.isSome)
    ∧ (avg_accidents_per_day sampleBrooklynData
        = some ((((specGroupCounts sampleBrooklynData).map (fun n : Nat => (n : ℚ))).sum)
            / ((specGroupCounts sampleBrooklynData).length : ℚ))
      ∧ filtered_df sampleBrooklynData jan1 jan4 = sampleBrooklynData
      ∧ sampleBrooklynData.length = 3
      ∧ avg_accidents_per_day sampleBrooklynData = some (3 / 2)
      ∧ ((3 : ℚ) / 2 ≠ (3 : ℚ) / 4)) :=
  ⟨⟨by decide, by decide⟩,
    avg_per_day_is_mean_of_group_counts sampleBrooklynData (by decide) (by decide)⟩

/-- C5 counterexample: on the column `["B", "A"]` both values are tied
at multiplicity one; the first-encountered (stable) mode is `"B"`, but
`mode()[0]` returns `"A"` because pandas sorts the modal values and the
subscript takes the smallest. -/
theorem mode_tie_not_first_encountered :
    specStableMode colBA = some "B"
    ∧ mode0 colBA = some "A"
    ∧ mode0 colBA ≠ specStableMode colBA := by
  refine ⟨by decide, by decide, by decide⟩

/-- C5 as amended: the modal statistics return a most frequently
occurring non-null value of the column, but ties are broken by ascending
sort order (the lexicographically least modal value is returned), not by
first encounter in dataset order. -/
theorem mode0_least_modal_value (col : List (Option String)) (v : String)
    (h : mode0 col = some v) :
    v ∈ col.filterMap id
    ∧ (∀ w ∈ col.filterMap id,
        (col.filterMap id).count w ≤ (col.filterMap id).count v)
    ∧ (∀ w ∈ col.filterMap id,
        (col.filterMap id).count w = (col.filterMap id).count v →
          pyStrLt w v = false) := by
  unfold mode0 at h
  have hv_cand : v ∈ modeCandidates (col.filterMap id) := listMinStr_mem h
  have hv_filter := List.mem_filter.mp hv_cand
  have hv_vs : v ∈ col.filterMap id := hv_filter.1
  have hv_max : (col.filterMap id).count v = maxCount (col.filterMap id) := by
    have := hv_filter.2
    simpa using this
  refine ⟨hv_vs, ?_, ?_⟩
  · intro w hw
    rw [hv_max]
    exact count_le_maxCount hw
  · intro w hw hcount
    have hw_cand : w ∈ modeCandidates (col.filterMap id) := by
      rw [modeCandidates, List.mem_filter]
      refine ⟨hw, ?_⟩
      simp [hcount, hv_max]
    exact listMinStr_min h hw_cand

/-- Witness for C5 (amended) on the concrete column `["B", "A"]`. -/
theorem mode0_least_modal_value_witness :
    (mode0 colBA = some "A")
    ∧ ("A" ∈ colBA.filterMap id
      ∧ (∀ w ∈ colBA.filterMap id,
          (colBA.filterMap id).count w ≤ (colBA.filterMap id).count "A")
      ∧ (∀ w ∈ colBA.filterMap id,
          (colBA.filterMap id).count w = (colBA.filterMap id).count "A" →
            pyStrLt w "A" = false)) :=
  ⟨by decide, mode0_least_modal_value colBA "A" (by decide)⟩

/-- C7: map composition lowercases the modal borough and looks it up in
the boundary table whose only keys are manhattan and brooklyn; exactly
when the lowercased borough is one of these does the scene contain a
polygon layer, and then it is the corresponding hard-coded boundary
ring; for any other borough the scene is the scatter layer alone. -/
theorem borough_overlay_lookup (fdf : List Record) (b : String) (h : fdf ≠ []) :
    (∀ name, (borough_boundaries name).isSome
        ↔ (name = "manhattan" ∨ name = "brooklyn"))
    ∧ ((∃ ring, Layer.polygon ring ∈ (buildDeck fdf b).layers)
        ↔ (pyLower b = "manhattan" ∨ pyLower b = "brooklyn"))
    ∧ (pyLower b = "manhattan" →
        (buildDeck fdf b).layers
          = [Layer.scatter (fdf.map (fun r => (r.longitude, r.latitude))),
              Layer.polygon manhattanBoundary])
    ∧ (pyLower b = "brooklyn" →
        (buildDeck fdf b).layers
          = [Layer.scatter (fdf.map (fun r => (r.longitude, r.latitude))),
              Layer.polygon brooklynBoundary])
    ∧ (pyLower b ≠ "manhattan" → pyLower b ≠ "brooklyn" →
        (buildDeck fdf b).layers
          = [Layer.scatter (fdf.map (fun r => (r.longitude, r.latitude)))]) := by
  have hdict : ∀ name, (borough_boundaries name).isSome
      ↔ (name = "manhattan" ∨ name = "brooklyn") := by
    intro name
    by_cases h1 : name = "manhattan"
    · simp [borough_boundaries, h1]
    · by_cases h2 : name = "brooklyn" <;> simp [borough_boundaries, h1, h2]
  have hlayers : (buildDeck fdf b).layers
      = Layer.scatter (fdf.map (fun r => (r.longitude, r.latitude))) ::
          (match borough_boundaries (pyLower b) with
           | some ring => [Layer.polygon ring]
           | none => []) := rfl
  refine ⟨hdict, ?_, ?_, ?_, ?_⟩
  · constructor
    · rintro ⟨ring, hring⟩
      rw [hlayers] at hring
      rcases hcase : borough_boundaries (pyLower b) with _ | ring2
      · rw [hcase] at hring
        simp at hring
      · exact (hdict (pyLower b)).mp (by rw [hcase]; rfl)
    · intro hb
      have hsome : (borough_boundaries (pyLower b)).isSome := (hdict _).mpr hb
      rcases hcase : borough_boundaries (pyLower b) with _ | ring
      · rw [hcase] at hsome; cases hsome
      · refine ⟨ring, ?_⟩
        rw [hlayers, hcase]
        exact List.mem_cons_of_mem _ (List.mem_cons_self _ _)
  · intro h1
    rw [hlayers, h1]
    simp [borough_boundaries]
  · intro h1
    rw [hlayers, h1]
    simp [borough_boundaries]
  · intro h1 h2
    rw [hlayers]
    rcases hcase : borough_boundaries (pyLower b) with _ | ring
    · rfl
    · have := (hdict (pyLower b)).mp (by rw [hcase]; rfl)
      rcases this with h3 | h3
      · exact absurd h3 h1
      · exact absurd h3 h2

/-- Witness for C7 at a concrete one-record dataset with modal borough
written as Manhattan in mixed case. -/
theorem borough_overlay_lookup_witness :
    (([recMidnight] : List Record) ≠ [])
    ∧ ((∀ name, (borough_boundaries name).isSome
          ↔ (name = "manhattan" ∨ name = "brooklyn"))
      ∧ ((∃ ring, Layer.polygon ring ∈ (buildDeck [recMidnight] "Manhattan").layers)
          ↔ (pyLower "Manhattan" = "manhattan" ∨ pyLower "Manhattan" = "brooklyn"))
      ∧ (pyLower "Manhattan" = "manhattan" →
          (buildDeck [recMidnight] "Manhattan").layers
            = [Layer.scatter ([recMidnight].map (fun r => (r.longitude, r.latitude))),
                Layer.polygon manhattanBoundary])
      ∧ (pyLower "Manhattan" = "brooklyn" →
          (buildDeck [recMidnight] "Manhattan").layers
            = [Layer.scatter ([recMidnight].map (fun r => (r.longitude, r.latitude))),
                Layer.polygon brooklynBoundary])
      ∧ (pyLower "Manhattan" ≠ "manhattan" → pyLower "Manhattan" ≠ "brooklyn" →
          (buildDeck [recMidnight] "Manhattan").layers
            = [Layer.scatter ([recMidnight].map (fun r => (r.longitude, r.latitude)))])) :=
  ⟨by decide, borough_overlay_lookup [recMidnight] "Manhattan" (by decide)⟩
